import Mathlib

/-!
Verification of the KGTorrent pipeline controller (`KGTorrent/kgtorrent.py`).

The controller is the `main` function of `kgtorrent.py`: it parses a command
(`init` / `refresh` / `download`), a download strategy (`API` / `HTTP` / `SKIP`)
and a match filter, computes a `proceed` flag from the database-existence check
and the archive-folder check, and then runs the data-preparation stage and the
notebook-download stage guarded by that flag.

The embedding below models one run of `main` on already-parsed arguments as a
pure function from the run's inputs (command, strategy, matching list, and the
observations the environment would answer: database existence, first entry of
the archive folder, the interactive confirmation line, the identifiers the
store returns) to the list of externally visible events the run performs, in
order.  External collaborators (`DbCommunicationHandler`, `DataLoader`,
`MkPreprocessor`, `Downloader`) are opaque: each call to one of them becomes an
event carrying the arguments the controller passes.
-/

namespace KGTorrent

/-- The `command` positional argument; `argparse` restricts it to the three
`Commands` constants `"init"`, `"refresh"`, `"download"` (lines 54-63). -/
inductive Command where
  | init : Command
  | refresh : Command
  | download : Command
  deriving DecidableEq, Repr

/-- The `--strategy` option; `argparse` restricts it to
`DownloadStrategies.strategies() + ["SKIP"]`, i.e. `API`, `HTTP`, `SKIP`
(lines 65-75). -/
inductive DownloadStrategy where
  | API : DownloadStrategy
  | HTTP : DownloadStrategy
  | SKIP : DownloadStrategy
  deriving DecidableEq, Repr

/-- Inputs of one run of `main`: the parsed arguments together with the
answers the environment gives to the controller's queries.  `db_exists` is
the result of `db_engine.db_exists()` (line 114); `archive_first_entry` is
`next(Path(config.nb_archive_path).iterdir(), None)` (line 134);
`confirm_input` is the line `input(...)` returns (line 122, only consumed on
`refresh` against an existing database); `nb_identifiers` is the identifier
set returned by `db_engine.get_nb_identifiers(...)` (line 176). -/
structure Inputs where
  command : Command
  strategy : DownloadStrategy
  matching : List String
  db_exists : Bool
  archive_first_entry : Option String
  confirm_input : String
  nb_identifiers : Finset String
  deriving DecidableEq

/-- Python's `str.lower()` as used on the confirmation answer (line 123),
restricted to the ASCII case mapping. -/
def pyLower (s : String) : String :=
  String.mk (s.data.map Char.toLower)

/-- Case-insensitive string comparison: the two strings agree after
lower-casing.  This is the spec-side notion used to state the confirmation
property. -/
def caseInsensitiveEq (s t : String) : Prop :=
  pyLower s = pyLower t

instance (s t : String) : Decidable (caseInsensitiveEq s t) := by
  unfold caseInsensitiveEq; infer_instance

/-- Initial value of the proceed flag: `proceed: bool = False` (line 111). -/
def proceedInit : Bool := false

/-- The proceed flag after the database-existence block (lines 113-131).
Inside the `db_exists` branch the code runs three independent `if`s on the
command: `init` assigns `False`; `refresh` assigns the result of the
confirmation comparison `ans.lower() == "yes"`; the `download` branch only
prints and leaves the flag at its initial value.  When the database does not
exist the flag is set to `True`. -/
def proceedAfterDbCheck (i : Inputs) : Bool :=
  if i.db_exists then
    let p := proceedInit
    let p := if i.command = Command.init then false else p
    let p := if i.command = Command.refresh then
               (if pyLower i.confirm_input = "yes" then true else false)
             else p
    p
  else
    true

/-- The final proceed flag, after the archive-folder check (lines 133-138):
`if (data is not None) and (command == INIT or command == DOWNLOAD): proceed
= False`. -/
def proceed (i : Inputs) : Bool :=
  let p := proceedAfterDbCheck i
  if i.archive_first_entry ≠ none ∧
      (i.command = Command.init ∨ i.command = Command.download) then false
  else p

/-- The dispatch set: `download_identifiers = list(set(nb_identifiers) &
set(args.matching))` (line 194).  Python materialises both collections as
sets and intersects them; the (unspecified) order of the resulting list is
abstracted by keeping the value as a finite set. -/
def download_identifiers (i : Inputs) : Finset String :=
  i.nb_identifiers ∩ i.matching.toFinset

/-- Externally visible events of one run, in the order `main` performs them.
Constructor names follow the source calls they stand for. -/
inductive Event where
  /-- Construction of `DbCommunicationHandler` (line 100). -/
  | connectDb : Event
  /-- The call `db_engine.db_exists()` with its result (line 114). -/
  | checkDbExists : Bool → Event
  /-- The interactive confirmation prompt (line 122). -/
  | promptConfirm : Event
  /-- The line read from standard input (line 122). -/
  | readInput : String → Event
  /-- The read of the archive folder's first entry (line 134). -/
  | readArchiveDir : Option String → Event
  /-- Construction of `DataLoader` (line 145). -/
  | loadData : Event
  /-- Construction of `MkPreprocessor` and the `preprocess_mk()` call
  (lines 150-151). -/
  | preprocessTables : Event
  /-- The call `db_engine.create_new_db(drop_if_exists=True)` (line 159),
  carrying the `drop_if_exists` flag. -/
  | createNewDb : Bool → Event
  /-- The call `db_engine.write_tables(processed_dict)` (line 164). -/
  | writeTables : Event
  /-- The call `db_engine.set_foreign_keys(...)` (line 167). -/
  | setForeignKeys : Event
  /-- The call `db_engine.get_nb_identifiers(...)` (line 176). -/
  | queryIdentifiers : Event
  /-- The statement `del db_engine` (line 183). -/
  | delDbEngine : Event
  /-- Construction of `Downloader(download_identifiers, nb_archive_path)`
  (line 195), carrying the dispatch set. -/
  | newDownloader : Finset String → Event
  /-- The call `downloader.download_notebooks(strategy=args.strategy)`
  (line 196), carrying the strategy. -/
  | downloadNotebooks : DownloadStrategy → Event
  /-- Reaching the final `print("## KGTorrent end")` (line 202). -/
  | runEnd : Event
  deriving DecidableEq

/-- Events of the database-existence block (lines 113-131): the confirmation
prompt and the read of its answer happen exactly when the database exists and
the command is `refresh`. -/
def dbCheckTrace (i : Inputs) : List Event :=
  if i.db_exists ∧ i.command = Command.refresh then
    [Event.promptConfirm, Event.readInput i.confirm_input]
  else []

/-- Events of the data-preparation block (lines 141-171), guarded by
`if proceed and (command != Commands.DOWNLOAD)`. -/
def prepTrace (i : Inputs) : List Event :=
  if proceed i = true ∧ i.command ≠ Command.download then
    [Event.loadData, Event.preprocessTables, Event.createNewDb true,
     Event.writeTables, Event.setForeignKeys]
  else []

/-- Events of the strategy dispatch (lines 193-199), guarded by
`if not args.strategy == "SKIP"`. -/
def dispatchTrace (i : Inputs) : List Event :=
  if i.strategy ≠ DownloadStrategy.SKIP then
    [Event.newDownloader (download_identifiers i),
     Event.downloadNotebooks i.strategy]
  else []

/-- Events of the notebook-download block (lines 173-199), guarded by
`if proceed`. -/
def downloadTrace (i : Inputs) : List Event :=
  if proceed i = true then
    Event.queryIdentifiers :: Event.delDbEngine :: dispatchTrace i
  else []

/-- The full, ordered event trace of one run of `main` (lines 94-202). -/
def mainTrace (i : Inputs) : List Event :=
  [Event.connectDb, Event.checkDbExists i.db_exists] ++
    dbCheckTrace i ++
    [Event.readArchiveDir i.archive_first_entry] ++
    prepTrace i ++
    downloadTrace i ++
    [Event.runEnd]

/-- Process exit status of a run.  `main` (lines 41-202) contains no
`sys.exit` call and raises nothing itself: on every parsed invocation the
modelled run falls through to line 202 and the Python process exits with
status 0, whatever the proceed flag decided. -/
def mainExitCode (_ : Inputs) : Nat := 0

/-- The dispatch sets handed to `Downloader` constructions in a trace. -/
def downloaderPayloads (t : List Event) : List (Finset String) :=
  t.filterMap fun e =>
    match e with
    | Event.newDownloader s => some s
    | _ => none

/-- How many `download_notebooks` calls a trace contains. -/
def downloadCallCount (t : List Event) : Nat :=
  t.countP fun e =>
    match e with
    | Event.downloadNotebooks _ => true
    | _ => false

/-- Example run: `init` while the database already exists, clean archive. -/
def initOnExisting : Inputs :=
  ⟨Command.init, DownloadStrategy.HTTP, [], true, none, "", ∅⟩

/-- Example run: `init` while the database already exists and the archive
folder holds an entry. -/
def initOnExistingDirty : Inputs :=
  ⟨Command.init, DownloadStrategy.HTTP, [], true, some "f", "", ∅⟩

/-- Example run: `download` while the database already exists, clean
archive. -/
def downloadOnExisting : Inputs :=
  ⟨Command.download, DownloadStrategy.HTTP, [], true, none, "", {"a"}⟩

/-- Example run: `refresh` against an existing database, confirmation
declined. -/
def refreshDeclined : Inputs :=
  ⟨Command.refresh, DownloadStrategy.HTTP, [], true, none, "no", ∅⟩

/-- Example run: `refresh` against an existing database with a non-empty
archive folder, confirmation typed in upper case. -/
def refreshShouted : Inputs :=
  ⟨Command.refresh, DownloadStrategy.HTTP, [], true, some "x", "YES", ∅⟩

/-- Example run: `init` on a fresh database with a match filter. -/
def initFreshWithFilter : Inputs :=
  ⟨Command.init, DownloadStrategy.HTTP, ["b", "c", "d"], false, none, "",
    {"a", "b", "c"}⟩

/-- Example run: `init` on a fresh database, but the archive folder holds an
entry. -/
def initFreshDirtyArchive : Inputs :=
  ⟨Command.init, DownloadStrategy.HTTP, [], false, some "x", "", ∅⟩

/-- Example run: `init` on a fresh database, empty archive, strategy
`SKIP` (scenario A of the spec). -/
def scenarioA : Inputs :=
  ⟨Command.init, DownloadStrategy.SKIP, [], false, none, "", ∅⟩

/-! ### Helper lemmas -/

lemma prepTrace_of_not_proceed {i : Inputs} (h : proceed i = false) :
    prepTrace i = [] := by
  simp [prepTrace, h]

lemma downloadTrace_of_not_proceed {i : Inputs} (h : proceed i = false) :
    downloadTrace i = [] := by
  simp [downloadTrace, h]

lemma downloaderPayloads_append (a b : List Event) :
    downloaderPayloads (a ++ b) =
      downloaderPayloads a ++ downloaderPayloads b := by
  simp [downloaderPayloads, List.filterMap_append]

lemma downloadCallCount_append (a b : List Event) :
    downloadCallCount (a ++ b) =
      downloadCallCount a + downloadCallCount b := by
  simp [downloadCallCount, List.countP_append]

lemma downloaderPayloads_dbCheckTrace (i : Inputs) :
    downloaderPayloads (dbCheckTrace i) = [] := by
  unfold dbCheckTrace; split <;> rfl

lemma downloaderPayloads_prepTrace (i : Inputs) :
    downloaderPayloads (prepTrace i) = [] := by
  unfold prepTrace; split <;> rfl

lemma downloadCallCount_dbCheckTrace (i : Inputs) :
    downloadCallCount (dbCheckTrace i) = 0 := by
  unfold dbCheckTrace; split <;> rfl

lemma downloadCallCount_prepTrace (i : Inputs) :
    downloadCallCount (prepTrace i) = 0 := by
  unfold prepTrace; split <;> rfl

/-! ### Claim theorems -/

/-- C1: if the guard stage decides abort (the proceed flag is false), then no
`create_new_db`, `write_tables` or `set_foreign_keys` call, and no
`Downloader` construction or `download_notebooks` call, occurs in the run. -/
theorem abort_no_side_effects (i : Inputs) (h : proceed i = false) :
    (∀ b, Event.createNewDb b ∉ mainTrace i) ∧
    Event.writeTables ∉ mainTrace i ∧
    Event.setForeignKeys ∉ mainTrace i ∧
    (∀ s, Event.newDownloader s ∉ mainTrace i) ∧
    (∀ st, Event.downloadNotebooks st ∉ mainTrace i) := by
  have hp := prepTrace_of_not_proceed h
  have hd := downloadTrace_of_not_proceed h
  by_cases hc : i.db_exists ∧ i.command = Command.refresh <;>
    refine ⟨fun b => ?_, ?_, ?_, fun s => ?_, fun st => ?_⟩ <;>
      simp [mainTrace, hp, hd, dbCheckTrace, hc]

/-- Witness for C1 at the concrete run `initOnExisting`. -/
theorem abort_no_side_effects_witness :
    proceed initOnExisting = false ∧
    ((∀ b, Event.createNewDb b ∉ mainTrace initOnExisting) ∧
      Event.writeTables ∉ mainTrace initOnExisting ∧
      Event.setForeignKeys ∉ mainTrace initOnExisting ∧
      (∀ s, Event.newDownloader s ∉ mainTrace initOnExisting) ∧
      (∀ st, Event.downloadNotebooks st ∉ mainTrace initOnExisting)) :=
  ⟨by decide, abort_no_side_effects initOnExisting (by decide)⟩

/-- C2: evaluation of the code at the failing input.  With the database
existing, the command `download` and an empty archive folder, the
database-existence block only prints (lines 127-128) and never assigns the
proceed flag, which therefore keeps its initial value `False` (line 111): the
run skips the whole download stage, never even querying the identifiers —
although the code just announced that "this operation will only download the
notebooks". -/
theorem download_on_existing_store_skips_download :
    proceed downloadOnExisting = false ∧
    Event.queryIdentifiers ∉ mainTrace downloadOnExisting ∧
    downloaderPayloads (mainTrace downloadOnExisting) = [] ∧
    downloadCallCount (mainTrace downloadOnExisting) = 0 := by
  decide

/-- C3 counterexample: a run the guard aborts (a declined `refresh`
confirmation) still falls through to the end of `main` and exits with the
success status 0 — not with a non-zero/error outcome. -/
theorem abort_exits_zero_counterexample :
    proceed refreshDeclined = false ∧
    mainExitCode refreshDeclined = 0 ∧
    Event.runEnd ∈ mainTrace refreshDeclined := by
  decide

/-- C3 amended: every run in which the guard stage decides abort terminates
cleanly with the success exit status 0, reaching the end of `main` — the same
successful outcome as a run whose last applicable stage completes. -/
theorem abort_exits_successfully (i : Inputs) (_h : proceed i = false) :
    mainExitCode i = 0 ∧ Event.runEnd ∈ mainTrace i := by
  exact ⟨rfl, by simp [mainTrace]⟩

/-- Witness for the amended C3 at the concrete run `refreshDeclined`. -/
theorem abort_exits_successfully_witness :
    mainExitCode refreshDeclined = 0 ∧
    Event.runEnd ∈ mainTrace refreshDeclined :=
  abort_exits_successfully refreshDeclined (by decide)

/-- C4: in a proceeding run with a strategy other than `SKIP`, exactly one
`Downloader` is constructed, its dispatch set is exactly the intersection of
the store-returned identifiers with the match filter, `download_notebooks`
is called exactly once, and an empty match filter yields an empty dispatch
set (the `Downloader` still being constructed and invoked once on it). -/
theorem dispatch_set_is_intersection (i : Inputs)
    (h1 : proceed i = true) (h2 : i.strategy ≠ DownloadStrategy.SKIP) :
    downloaderPayloads (mainTrace i) =
      [i.nb_identifiers ∩ i.matching.toFinset] ∧
    downloadCallCount (mainTrace i) = 1 ∧
    (i.matching = [] → downloaderPayloads (mainTrace i) = [∅]) := by
  have hd : downloadTrace i =
      [Event.queryIdentifiers, Event.delDbEngine,
       Event.newDownloader (download_identifiers i),
       Event.downloadNotebooks i.strategy] := by
    simp [downloadTrace, dispatchTrace, h1, h2]
  have hpay : downloaderPayloads (mainTrace i) = [download_identifiers i] := by
    rw [mainTrace, hd]
    simp only [downloaderPayloads_append, downloaderPayloads_dbCheckTrace,
      downloaderPayloads_prepTrace]
    rfl
  have hcnt : downloadCallCount (mainTrace i) = 1 := by
    rw [mainTrace, hd]
    simp only [downloadCallCount_append, downloadCallCount_dbCheckTrace,
      downloadCallCount_prepTrace]
    rfl
  refine ⟨?_, hcnt, fun hm => ?_⟩
  · rw [hpay]; rfl
  · rw [hpay]
    simp [download_identifiers, hm]

/-- Witness for C4 at the concrete run `initFreshWithFilter`: identifiers
`{a, b, c}` against filter `[b, c, d]` dispatch exactly `{b, c}`. -/
theorem dispatch_set_is_intersection_witness :
    proceed initFreshWithFilter = true ∧
    initFreshWithFilter.strategy ≠ DownloadStrategy.SKIP ∧
    downloaderPayloads (mainTrace initFreshWithFilter) =
      [initFreshWithFilter.nb_identifiers ∩
        initFreshWithFilter.matching.toFinset] ∧
    download_identifiers initFreshWithFilter = {"b", "c"} :=
  ⟨by decide, by decide,
   (dispatch_set_is_intersection initFreshWithFilter (by decide)
      (by decide)).1,
   by decide⟩

/-- C5: a `refresh` against an existing database proceeds exactly when the
confirmation input equals the token `yes` under case-insensitive comparison;
any other input (the empty string included) leaves the flag false. -/
theorem refresh_confirmation_gate (i : Inputs)
    (h1 : i.db_exists = true) (h2 : i.command = Command.refresh) :
    proceed i = true ↔ caseInsensitiveEq i.confirm_input "yes" := by
  have hys : pyLower "yes" = "yes" := by decide
  simp [proceed, proceedAfterDbCheck, proceedInit, h1, h2,
    caseInsensitiveEq, hys]

/-- Witness for C5: the upper-case answer `YES` makes the concrete
`refreshShouted` run proceed. -/
theorem refresh_confirmation_gate_witness :
    proceed refreshShouted = true :=
  (refresh_confirmation_gate refreshShouted rfl rfl).mpr (by decide)

/-- C6: a non-empty archive folder forces the proceed flag to false for the
commands `init` and `download`, whatever the database check decided; for
`refresh` the final flag equals the flag computed by the database block
alone, so the archive content never causes an abort. -/
theorem archive_check_scope (i : Inputs) :
    ((i.command = Command.init ∨ i.command = Command.download) →
      i.archive_first_entry ≠ none → proceed i = false) ∧
    (i.command = Command.refresh → proceed i = proceedAfterDbCheck i) := by
  constructor
  · intro hc ha
    rcases hc with hc | hc <;> simp [proceed, ha, hc]
  · intro hc
    simp [proceed, hc]

/-- Witness for C6 at the concrete runs `initFreshDirtyArchive` (dirty
archive aborts an `init` even on a fresh database) and `refreshShouted`
(dirty archive leaves a `refresh` decision untouched). -/
theorem archive_check_scope_witness :
    proceed initFreshDirtyArchive = false ∧
    proceed refreshShouted = proceedAfterDbCheck refreshShouted :=
  ⟨(archive_check_scope initFreshDirtyArchive).1 (Or.inl rfl) (by decide),
   (archive_check_scope refreshShouted).2 rfl⟩

/-- C7 counterexample: on an `init` against an existing database the guard
decides abort, yet the archive-folder inspection (line 134) is still
performed afterwards — the read of the archive folder is unconditional, so
the claim that no further check runs after the decision is false. -/
theorem init_on_existing_reads_archive_counterexample :
    proceed initOnExistingDirty = false ∧
    Event.readArchiveDir (some "f") ∈ mainTrace initOnExistingDirty := by
  decide

/-- C7 amended: when the database exists and the command is `init`, the
guard decides abort and the run executes no preparation or download stage;
however the archive-folder inspection is still performed after that
decision — it merely cannot change it. -/
theorem init_on_existing_aborts (i : Inputs)
    (h1 : i.db_exists = true) (h2 : i.command = Command.init) :
    proceed i = false ∧
    Event.readArchiveDir i.archive_first_entry ∈ mainTrace i ∧
    prepTrace i = [] ∧ downloadTrace i = [] := by
  have hp : proceedAfterDbCheck i = false := by
    simp [proceedAfterDbCheck, proceedInit, h1, h2]
  have hpf : proceed i = false := by
    simp [proceed, hp]
  refine ⟨hpf, ?_, ?_, ?_⟩
  · simp [mainTrace]
  · simp [prepTrace, hpf]
  · simp [downloadTrace, hpf]

/-- Witness for the amended C7 at the concrete run `initOnExisting`. -/
theorem init_on_existing_aborts_witness :
    proceed initOnExisting = false ∧
    Event.readArchiveDir initOnExisting.archive_first_entry ∈
      mainTrace initOnExisting ∧
    prepTrace initOnExisting = [] ∧ downloadTrace initOnExisting = [] :=
  init_on_existing_aborts initOnExisting rfl rfl

/-- C8: a proceeding `init` or `refresh` run contains the block
loader, preprocessor, destructive recreate, bulk write, constraint
application as a contiguous segment of its trace — so in that order, with
the constraints applied strictly after the bulk write — and each of the five
calls occurs exactly once in the whole run. -/
theorem prep_stage_order (i : Inputs) (h1 : proceed i = true)
    (h2 : i.command = Command.init ∨ i.command = Command.refresh) :
    (∃ pre post, mainTrace i =
        pre ++
          [Event.loadData, Event.preprocessTables, Event.createNewDb true,
           Event.writeTables, Event.setForeignKeys] ++ post) ∧
    (mainTrace i).count Event.loadData = 1 ∧
    (mainTrace i).count Event.preprocessTables = 1 ∧
    (mainTrace i).count (Event.createNewDb true) = 1 ∧
    (mainTrace i).count Event.writeTables = 1 ∧
    (mainTrace i).count Event.setForeignKeys = 1 := by
  have hcd : i.command ≠ Command.download := by
    rcases h2 with h | h <;> simp [h]
  have hprep : prepTrace i =
      [Event.loadData, Event.preprocessTables, Event.createNewDb true,
       Event.writeTables, Event.setForeignKeys] := by
    simp [prepTrace, h1, hcd]
  have hdl : downloadTrace i =
      Event.queryIdentifiers :: Event.delDbEngine :: dispatchTrace i := by
    simp [downloadTrace, h1]
  refine ⟨⟨[Event.connectDb, Event.checkDbExists i.db_exists] ++
      dbCheckTrace i ++ [Event.readArchiveDir i.archive_first_entry],
      downloadTrace i ++ [Event.runEnd], by simp [mainTrace, hprep]⟩,
    ?_, ?_, ?_, ?_, ?_⟩ <;>
  · by_cases hc : i.db_exists ∧ i.command = Command.refresh <;>
    by_cases hs : i.strategy = DownloadStrategy.SKIP <;>
      simp [mainTrace, hprep, hdl, dbCheckTrace, dispatchTrace, hc, hs,
        List.count_cons, List.count_append]

/-- Witness for C8 at the concrete run `scenarioA` (fresh database, empty
archive, command `init`, strategy `SKIP`). -/
theorem prep_stage_order_witness :
    (∃ pre post, mainTrace scenarioA =
        pre ++
          [Event.loadData, Event.preprocessTables, Event.createNewDb true,
           Event.writeTables, Event.setForeignKeys] ++ post) ∧
    (mainTrace scenarioA).count Event.loadData = 1 ∧
    (mainTrace scenarioA).count Event.preprocessTables = 1 ∧
    (mainTrace scenarioA).count (Event.createNewDb true) = 1 ∧
    (mainTrace scenarioA).count Event.writeTables = 1 ∧
    (mainTrace scenarioA).count Event.setForeignKeys = 1 :=
  prep_stage_order scenarioA (by decide) (Or.inl rfl)

/-- C9: every run constructs the database connection as its very first
action, before the existence check and hence before any guard decision —
even a run the guard will immediately abort. -/
theorem connection_before_guard (i : Inputs) :
    ∃ rest, mainTrace i =
      Event.connectDb :: Event.checkDbExists i.db_exists :: rest :=
  ⟨_, rfl⟩

/-- C10: the archive folder's first entry is read on every run, whatever the
command; and for `refresh` the value read never influences the proceed flag. -/
theorem archive_read_every_run (i : Inputs) :
    Event.readArchiveDir i.archive_first_entry ∈ mainTrace i ∧
    (i.command = Command.refresh →
      ∀ d, proceed { i with archive_first_entry := d } = proceed i) := by
  constructor
  · simp [mainTrace]
  · intro hc d
    simp [proceed, proceedAfterDbCheck, proceedInit, hc]

/-- Witness for C10 at the concrete run `refreshShouted`. -/
theorem archive_read_every_run_witness :
    Event.readArchiveDir refreshShouted.archive_first_entry ∈
      mainTrace refreshShouted ∧
    proceed { refreshShouted with archive_first_entry := none } =
      proceed refreshShouted :=
  ⟨(archive_read_every_run refreshShouted).1,
   (archive_read_every_run refreshShouted).2 rfl none⟩

end KGTorrent
